import Mathlib

/-!
Shallow embedding of the session transport core of browser-debugger-tools
(src/browserdebuggertools/targets_manager.py, with the identical logic in
src/browserdebuggertools/wssessionmanager.py and the internal event handlers
in src/browserdebuggertools/event_handlers.py).

Modelling conventions:
- CDP messages are records with optional id / result / error / method fields
  and an opaque parameter dictionary; dictionaries are association lists.
- Python list objects are modelled with an explicit heap (address -> list)
  so that aliasing and defensive copies of the per-domain event lists are
  observable; Heap.set is an in-place mutation of the object at an address.
- The synchronous websocket round trip of execute is modelled by passing the
  payload which the transport loop delivers for the allocated command id;
  the delivery itself is the result branch of _process_message.
- Timestamps are naturals (seconds); the poll loops are collapsed to their
  observable outcome (result present, or timeout).
-/

namespace BrowserDebuggerTools

/-- A CDP error object: the code and message fields of the error value of a
response message. -/
structure ErrObj where
  code : Int
  message : String
deriving DecidableEq

/-- A stored command result: the payload kept in the results map. It either
carries a CDP error object under its error key or is a plain success body
(whose remaining fields are opaque to the transport core). -/
structure Payload where
  error : Option ErrObj := none
  body : List (String × String) := []
deriving DecidableEq

/-- An inbound websocket message after JSON parsing: optional id, result,
error and method fields plus an opaque params dictionary. -/
structure Message where
  id : Option Nat := none
  result : Option Payload := none
  error : Option ErrObj := none
  method : Option String := none
  params : List (String × String) := []
deriving DecidableEq

/-- Python exceptions that escape _process_message (they kill the messaging
thread rather than being translated). -/
inductive PyError where
  | keyError
  | valueError
  | attributeError
deriving DecidableEq

/-- The error taxonomy of browserdebuggertools.exceptions, restricted to the
errors the transport core raises. -/
inductive DevToolsError where
  | resourceNotFound (message : String)
  | methodNotFound (message : String)
  | invalidParameters (message : String)
  | unknown (code : Int) (message : String)
  | domainNotEnabled (domain : String)
  | timeout
  | maxRetries
  | messagingThreadDead
deriving DecidableEq

/-- Python str.split for a single-character separator, over the character
list: "" splits to [""], separators at the ends produce empty parts. -/
def splitOnChar (sep : Char) : List Char → List (List Char)
  | [] => [[]]
  | c :: rest =>
    let r := splitOnChar sep rest
    if c = sep then [] :: r
    else
      match r with
      | [] => [[c]]
      | p :: ps => (c :: p) :: ps

/-- method.split of the demultiplexer: Python str.split on the dot. -/
def pySplitDot (s : String) : List String :=
  (splitOnChar '.' s.toList).map (fun cs => String.mk cs)

/-- Python dict assignment d[k] = v on an association list: the previous
binding for the key is dropped. -/
def upsert {α β : Type} [BEq α] (k : α) (v : β) (l : List (α × β)) : List (α × β) :=
  (k, v) :: l.eraseP (fun p => p.1 == k)

/-- Python del d[k] on an association list. -/
def removeKey {α β : Type} [BEq α] (k : α) (l : List (α × β)) : List (α × β) :=
  l.eraseP (fun p => p.1 == k)

/-! Internal event handlers (event_handlers.py). -/

/-- PageLoadEventHandler state: the cached document URL and the cached root
backend node id. Both none is the stale state. -/
structure PageLoadState where
  url : Option String := none
  rootNodeId : Option Nat := none
deriving DecidableEq

/-- JavascriptDialogEventHandler dialog object: its parameters and whether it
has been handled. -/
structure DialogState where
  params : List (String × String)
  isHandled : Bool
deriving DecidableEq

/-- The two internal handlers owned by a session manager. The dialog slot is
none until the first javascriptDialogOpening event. -/
structure Handlers where
  pageLoad : PageLoadState
  dialog : Option DialogState
deriving DecidableEq

def PageLoadEventHandler.supported_events : List String :=
  ["Page.domContentEventFired", "Page.navigatedWithinDocument", "Page.frameNavigated"]

def JavascriptDialogEventHandler.supported_events : List String :=
  ["Page.javascriptDialogOpening", "Page.javascriptDialogClosed"]

/-- PageLoadEventHandler.handle: navigatedWithinDocument stores the URL from
the event parameters (a missing url key is a KeyError, as in Python);
domContentEventFired and frameNavigated reset both cached fields; any other
message leaves the state unchanged. -/
def PageLoadEventHandler.handle (m : Message) (st : PageLoadState) :
    Except PyError PageLoadState :=
  if m.method = some "Page.navigatedWithinDocument" then
    match m.params.lookup "url" with
    | some u => .ok { st with url := some u }
    | none => .error .keyError
  else if m.method = some "Page.domContentEventFired" then
    .ok {}
  else if m.method = some "Page.frameNavigated" then
    .ok {}
  else
    .ok st

/-- JavascriptDialogEventHandler.handle: javascriptDialogOpening replaces the
dialog object, javascriptDialogClosed marks the existing object handled (an
AttributeError if there is none, as message["method"] access in Python). -/
def JavascriptDialogEventHandler.handle (m : Message) (st : Option DialogState) :
    Except PyError (Option DialogState) :=
  match m.method with
  | none => .error .keyError
  | some meth =>
    if meth = "Page.javascriptDialogOpening" then
      .ok (some { params := m.params, isHandled := false })
    else if meth = "Page.javascriptDialogClosed" then
      match st with
      | none => .error .attributeError
      | some dl => .ok (some { dl with isHandled := true })
    else
      .ok st

/-- The internal-handler routing table of _WSSessionManager.__init__: the
method string is looked up among the supported events of each handler and the
matching handler runs synchronously. -/
def dispatchInternal (hs : Handlers) (meth : String) (m : Message) :
    Except PyError Handlers :=
  if meth ∈ PageLoadEventHandler.supported_events then
    (PageLoadEventHandler.handle m hs.pageLoad).map (fun st => { hs with pageLoad := st })
  else if meth ∈ JavascriptDialogEventHandler.supported_events then
    (JavascriptDialogEventHandler.handle m hs.dialog).map (fun st => { hs with dialog := st })
  else
    .ok hs

/-! The heap of Python list objects backing the per-domain event lists. -/


abbrev Params := List (String × String)

/-- Store of list objects: an address map plus the next fresh address. An
address without an entry reads as the empty list. -/
structure Heap where
  store : List (Nat × List Message)
  next : Nat
deriving DecidableEq

def Heap.get (h : Heap) (a : Nat) : List Message :=
  (h.store.lookup a).getD []

/-- Allocation of a fresh list object. -/
def Heap.alloc (h : Heap) (v : List Message) : Nat × Heap :=
  (h.next, { store := (h.next, v) :: h.store, next := h.next + 1 })

/-- In-place mutation of the list object at an address (list.append or any
caller-side mutation of a returned list). -/
def Heap.set (h : Heap) (a : Nat) (v : List Message) : Heap :=
  { store := (a, v) :: h.store, next := h.next }

/-- An outbound command as placed on the send queue by _execute (the JSON
serialisation is abstracted). -/
structure Command where
  id : Nat
  method : String
  params : Params
deriving DecidableEq

/-- The mutable state of a _WSSessionManager: the domain registry _domains,
the per-domain event lists _events (a key map to list objects on the heap),
the results map _results, the id counter _next_result_id, the send queue and
the internal handler states. -/
structure WSState where
  domains : List (String × Params)
  eventSlots : List (String × Nat)
  heap : Heap
  results : List (Nat × Payload)
  nextResultId : Nat
  sendQueue : List Command
  handlers : Handlers
deriving DecidableEq

/-- A fresh session manager state with no enabled domains. -/
def WSState.empty : WSState :=
  { domains := [], eventSlots := [], heap := { store := [], next := 0 },
    results := [], nextResultId := 0, sendQueue := [],
    handlers := { pageLoad := {}, dialog := none } }

/-- Outcome of a session manager method: a returned value or a raised
DevTools error, together with the state at that point. -/
inductive MRes (α : Type) where
  | ok (val : α) (s : WSState)
  | exn (e : DevToolsError) (s : WSState)
deriving DecidableEq

def MRes.raised {α : Type} : MRes α → Option DevToolsError
  | .ok _ _ => none
  | .exn e _ => some e

def MRes.value {α : Type} : MRes α → Option α
  | .ok v _ => some v
  | .exn _ _ => none

def MRes.state {α : Type} : MRes α → WSState
  | .ok _ s => s
  | .exn _ s => s

/-! _WSSessionManager methods (targets_manager.py). -/

def is_domain_enabled (s : WSState) (domain : String) : Bool :=
  (s.domains.lookup domain).isSome

/-- _add_domain: registers the domain and allocates its (fresh, empty) event
list, or does nothing when the domain is already registered. -/
def _add_domain (s : WSState) (domain : String) (params : Params) : WSState :=
  if is_domain_enabled s domain then s
  else
    let r := s.heap.alloc []
    { s with domains := (domain, params) :: s.domains,
             eventSlots := (domain, r.1) :: s.eventSlots,
             heap := r.2 }

/-- _remove_domain: drops the domain from the registry and drops its event
list, or does nothing when the domain is not registered. -/
def _remove_domain (s : WSState) (domain : String) : WSState :=
  if is_domain_enabled s domain then
    { s with domains := removeKey domain s.domains,
             eventSlots := removeKey domain s.eventSlots }
  else s

/-- _process_message: the demultiplexer run by the transport loop for every
inbound message. A result message and an error message are stored in the
results map under their id; a method message first runs the matching internal
handler (when the method is in the routing table), then the unguarded
destructuring split of the method on the dot (a ValueError unless it yields
exactly two parts), then appends the message to the event list of the domain
when that domain key is present in the events table; a message with none of
these fields is logged and discarded. -/
def _process_message (s : WSState) (m : Message) : Except PyError WSState :=
  match m.result with
  | some payload =>
    match m.id with
    | some i => .ok { s with results := upsert i payload s.results }
    | none => .error .keyError
  | none =>
    match m.error with
    | some e =>
      match m.id with
      | some i => .ok { s with results := upsert i { error := some e } s.results }
      | none => .error .keyError
    | none =>
      match m.method with
      | some meth =>
        match dispatchInternal s.handlers meth m with
        | .error pe => .error pe
        | .ok hs =>
          match pySplitDot meth with
          | [d, _] =>
            match s.eventSlots.lookup d with
            | some a =>
              .ok { s with handlers := hs,
                           heap := s.heap.set a (s.heap.get a ++ [m]) }
            | none => .ok { s with handlers := hs }
          | _ => .error .valueError
      | none => .ok s

/-- _execute: allocates a fresh command id under the id lock and appends the
command to the send queue; returns the allocated id. -/
def _execute (s : WSState) (domain_name method_name : String) (params : Params) :
    Nat × WSState :=
  let result_id := s.nextResultId + 1
  (result_id,
   { s with nextResultId := result_id,
            sendQueue := s.sendQueue ++
              [{ id := result_id, method := domain_name ++ "." ++ method_name,
                 params := params }] })

/-- _wait_for_result: the bounded poll loop collapsed to its observable
outcome; a result stored under the id is popped and returned, otherwise the
wait ends in a DevToolsTimeoutException. -/
def _wait_for_result (s : WSState) (result_id : Nat) : MRes Payload :=
  match s.results.lookup result_id with
  | some p => .ok p { s with results := s.results.eraseP (fun q => q.1 == result_id) }
  | none => .exn .timeout s

/-- The error translation of execute, applied when the popped payload has a
CDP error object. -/
def translateProtocolError (e : ErrObj) : DevToolsError :=
  if e.code = -32000 then .resourceNotFound e.message
  else if e.code = -32601 then .methodNotFound e.message
  else if e.code = -32602 then .invalidParameters e.message
  else .unknown e.code e.message

/-- execute: allocates the id and enqueues the command, the transport loop
delivers the given response payload for that id (the result branch of
_process_message), the poll loop pops it, and a payload with a CDP error
object is translated by error code and raised; otherwise the payload is
returned. -/
def execute (s : WSState) (domain_name method_name : String) (params : Params)
    (response : Payload) : MRes Payload :=
  let r := _execute s domain_name method_name params
  let s₂ : WSState := { r.2 with results := upsert r.1 response r.2.results }
  match _wait_for_result s₂ r.1 with
  | .exn e s' => .exn e s'
  | .ok result s₃ =>
    match result.error with
    | some e => .exn (translateProtocolError e) s₃
    | none => .ok result s₃

/-- enable_domain: issues the domain enable command synchronously and only
registers the domain once the command has succeeded; a protocol rejection
propagates out of execute before _add_domain runs. -/
def enable_domain (s : WSState) (domain_name : String) (parameters : Params)
    (response : Payload) : MRes Unit :=
  match execute s domain_name "enable" parameters response with
  | .exn e s' => .exn e s'
  | .ok _ s' => .ok () (_add_domain s' domain_name parameters)

/-- disable_domain: unregisters the domain first, then issues the disable
command. The source then tests the returned result for an error key and only
logs, but execute has already raised for any error payload, so that branch is
dead and a protocol rejection propagates to the caller. -/
def disable_domain (s : WSState) (domain_name : String) (response : Payload) :
    MRes Unit :=
  let s₁ := _remove_domain s domain_name
  match execute s₁ domain_name "disable" [] response with
  | .exn e s' => .exn e s'
  | .ok _ s' => .ok () s'

/-- get_events: raises DomainNotEnabledError for an unregistered domain;
with clear it hands back the live list object and points the internal slot at
a fresh empty list, without clear it hands back a fresh defensive copy. The
returned value is the address of the handed-back list object. -/
def get_events (s : WSState) (domain : String) (clear : Bool) : MRes Nat :=
  if is_domain_enabled s domain then
    let a := (s.eventSlots.lookup domain).getD 0
    if clear then
      let r := s.heap.alloc []
      .ok a { s with heap := r.2, eventSlots := upsert domain r.1 s.eventSlots }
    else
      let r := s.heap.alloc (s.heap.get a)
      .ok r.1 { s with heap := r.2 }
  else
    .exn (.domainNotEnabled domain) s

/-- reset helper: every registered domain keeps its key but is pointed at a
fresh empty list object (the Python loop assigns a new literal list to each
slot); fresh addresses are taken consecutively from the given base. -/
def resetSlots (base : Nat) : List (String × Nat) → List (String × Nat)
  | [] => []
  | (d, _) :: rest => (d, base) :: resetSlots (base + 1) rest

/-- reset: empties every event list (each slot gets a fresh empty list
object), clears the results map, the id counter and the send queue; the
domain registry and the handler states are untouched. -/
def reset (s : WSState) : WSState :=
  { s with
    eventSlots := resetSlots s.heap.next s.eventSlots,
    heap := { store := s.heap.store, next := s.heap.next + s.eventSlots.length },
    results := [],
    nextResultId := 0,
    sendQueue := [] }

/-! The connection health bookkeeping of the session manager. -/

/-- The retry bookkeeping fields _last_not_ok and
_message_producer_not_ok_count. -/
structure RetryState where
  lastNotOk : Option Nat
  notOkCount : Nat
deriving DecidableEq

def MAX_RETRY_THREADS : Nat := 3
def RETRY_COUNT_TIMEOUT : Nat := 300

/-- _increment_message_producer_not_ok: the counter is reset when more than
RETRY_COUNT_TIMEOUT seconds have passed since the last recorded failure, the
failure timestamp is recorded and the counter incremented, and a counter
above MAX_RETRY_THREADS raises MaxRetriesException. -/
def _increment_message_producer_not_ok (now : Nat) (st : RetryState) :
    Except DevToolsError RetryState :=
  let count :=
    match st.lastNotOk with
    | some t => if now - t > RETRY_COUNT_TIMEOUT then 0 else st.notOkCount
    | none => st.notOkCount
  let st' : RetryState := { lastNotOk := some now, notOkCount := count + 1 }
  if st'.notOkCount > MAX_RETRY_THREADS then .error .maxRetries
  else .ok st'

/-- The verdict of _WSMessageProducer.health_check as seen by
_check_message_producer: healthy, a blocked or closed connection (the two
exception types the except clause recovers from), or any other death of the
messaging thread. -/
inductive HealthStatus where
  | healthy
  | blockedOrClosed
  | deadOther (e : DevToolsError)
deriving DecidableEq

/-- What _check_message_producer did: the updated retry bookkeeping, whether
a replacement message producer was created (_setup_ws_session ran), and the
domains that _setup_ws_session re-enabled on it. -/
structure CheckOutcome where
  retry : RetryState
  newProducerCreated : Bool
  reenabledDomains : List String
deriving DecidableEq

/-- _check_message_producer: a healthy producer is left alone; a blocked or
closed connection closes the socket, increments the failure bookkeeping (which
raises MaxRetriesException past the budget, before any replacement producer
exists) and otherwise creates a replacement producer with every registered
domain re-enabled on it; any other death propagates without retry. -/
def _check_message_producer (now : Nat) (health : HealthStatus)
    (st : RetryState) (registeredDomains : List String) :
    Except DevToolsError CheckOutcome :=
  match health with
  | .healthy => .ok { retry := st, newProducerCreated := false, reenabledDomains := [] }
  | .blockedOrClosed =>
    match _increment_message_producer_not_ok now st with
    | .error e => .error e
    | .ok st' =>
      .ok { retry := st', newProducerCreated := true,
            reenabledDomains := registeredDomains }
  | .deadOther e => .error e

/-! PageLoadEventHandler reads (event_handlers.py). In check_page_load the
DOM.getDocument round trip is modelled by the document root the browser
would return; the Nat component counts the DOM.getDocument commands issued. -/

/-- The root object of a DOM.getDocument response. -/
structure DocumentRoot where
  documentURL : String
  backendNodeId : Nat
deriving DecidableEq

/-- check_page_load: with the Page domain not enabled the cache is first
invalidated; a missing root node id then forces one DOM.getDocument round
trip which refreshes both cached fields. -/
def check_page_load (pageEnabled : Bool) (doc : DocumentRoot)
    (st : PageLoadState) : PageLoadState × Nat :=
  let st₁ := if pageEnabled then st else {}
  if st₁.rootNodeId = none then
    ({ url := some doc.documentURL, rootNodeId := some doc.backendNodeId }, 1)
  else
    (st₁, 0)

/-- get_current_url: check_page_load, then the cached URL; also returns the
resulting handler state and the DOM.getDocument command count. -/
def get_current_url (pageEnabled : Bool) (doc : DocumentRoot)
    (st : PageLoadState) : Option String × PageLoadState × Nat :=
  let r := check_page_load pageEnabled doc st
  (r.1.url, r.1, r.2)

/-- get_root_backend_node_id: check_page_load, then the cached root id; also
returns the resulting handler state and the DOM.getDocument command count. -/
def get_root_backend_node_id (pageEnabled : Bool) (doc : DocumentRoot)
    (st : PageLoadState) : Option Nat × PageLoadState × Nat :=
  let r := check_page_load pageEnabled doc st
  (r.1.rootNodeId, r.1, r.2)

/-- The id sequence allocated by a run of _execute calls with no intervening
reset. -/
def execMany (s : WSState) : List (String × String × Params) → List Nat
  | [] => []
  | (dn, mn, ps) :: rest =>
    let r := _execute s dn mn ps
    r.1 :: execMany r.2 rest

/-! Association-list and heap lemmas shared by the claims. -/

theorem lookup_upsert_self {α β : Type} [BEq α] [LawfulBEq α] (k : α) (v : β)
    (l : List (α × β)) : (upsert k v l).lookup k = some v := by
  simp [upsert, List.lookup]

theorem lookup_eraseP_ne {α β : Type} [BEq α] [LawfulBEq α] (k k' : α) (hne : k' ≠ k)
    (l : List (α × β)) :
    (l.eraseP (fun p => p.1 == k)).lookup k' = l.lookup k' := by
  induction l with
  | nil => rfl
  | cons hd tl ih =>
    cases hd with
    | mk a b =>
      by_cases h : a = k
      · have h2 : (k' == a) = false := by
          subst h
          simp [hne]
        have h5 : (k' == k) = false := by simp [hne]
        simp only [List.eraseP_cons, h, beq_self_eq_true, cond_true]
        simp only [List.lookup, h2, h5]
      · have h1 : (a == k) = false := by simp [h]
        simp only [List.eraseP_cons, h1, cond_false]
        by_cases h3 : k' = a
        · subst h3
          simp [List.lookup]
        · have h4 : (k' == a) = false := by simp [h3]
          simp only [List.lookup, h4, ih]

theorem lookup_upsert_ne {α β : Type} [BEq α] [LawfulBEq α] (k k' : α) (hne : k' ≠ k)
    (v : β) (l : List (α × β)) : (upsert k v l).lookup k' = l.lookup k' := by
  have h4 : (k' == k) = false := by simp [hne]
  simp only [upsert, List.lookup, h4]
  exact lookup_eraseP_ne k k' hne l

theorem lookup_mem {α β : Type} [BEq α] [LawfulBEq α] {k : α} {v : β}
    {l : List (α × β)} (h : l.lookup k = some v) : (k, v) ∈ l := by
  induction l with
  | nil => simp [List.lookup] at h
  | cons hd tl ih =>
    cases hd with
    | mk a b =>
      by_cases h3 : k = a
      · subst h3
        simp [List.lookup] at h
        simp [h]
      · have h4 : (k == a) = false := by simp [h3]
        simp only [List.lookup, h4] at h
        exact List.mem_cons_of_mem _ (ih h)

theorem lookup_none_of_bound {β : Type} {store : List (Nat × β)} {n m : Nat}
    (hb : ∀ p ∈ store, p.1 < n) (hm : n ≤ m) : store.lookup m = none := by
  induction store with
  | nil => rfl
  | cons hd tl ih =>
    cases hd with
    | mk a b =>
      have h1 : a < n := hb (a, b) (by simp)
      have h2 : (m == a) = false := by
        simp only [beq_eq_false_iff_ne, ne_eq]
        omega
      simp only [List.lookup, h2]
      exact ih (fun p hp => hb p (by simp [hp]))

theorem lookup_cons_ne {α β : Type} [BEq α] {k k' : α} (h : (k == k') = false)
    (v : β) (l : List (α × β)) : List.lookup k ((k', v) :: l) = List.lookup k l := by
  simp only [List.lookup, h]

theorem lookup_resetSlots (slots : List (String × Nat)) (d : String)
    (h : (slots.lookup d).isSome = true) (base : Nat) :
    ∃ i, i < slots.length ∧ (resetSlots base slots).lookup d = some (base + i) := by
  induction slots generalizing base with
  | nil => simp [List.lookup] at h
  | cons hd tl ih =>
    cases hd with
    | mk a v =>
      by_cases h3 : d = a
      · subst h3
        refine ⟨0, by simp, ?_⟩
        simp [resetSlots, List.lookup]
      · have h4 : (d == a) = false := by simp [h3]
        simp only [List.lookup, h4] at h
        obtain ⟨i, hi, hl⟩ := ih h (base + 1)
        refine ⟨i + 1, Nat.succ_lt_succ hi, ?_⟩
        rw [show base + 1 + i = base + (i + 1) by omega] at hl
        simp only [resetSlots, List.lookup, h4]
        exact hl

theorem execMany_eq_range' (cmds : List (String × String × Params)) :
    ∀ s : WSState, execMany s cmds = List.range' (s.nextResultId + 1) cmds.length := by
  induction cmds with
  | nil => intro s; rfl
  | cons hd tl ih =>
    intro s
    obtain ⟨dn, mn, ps⟩ := hd
    simp only [execMany, _execute, List.length_cons, List.range'_succ]
    rw [ih]

/-! Facts about execute shared by several claims. -/

theorem execute_raised_of_error (s : WSState) (dn mn : String) (ps : Params)
    (resp : Payload) (e : ErrObj) (herr : resp.error = some e) :
    (execute s dn mn ps resp).raised = some (translateProtocolError e) := by
  simp [execute, _wait_for_result, lookup_upsert_self, herr, MRes.raised]

theorem execute_preserves_registry (s : WSState) (dn mn : String) (ps : Params)
    (resp : Payload) :
    (execute s dn mn ps resp).state.domains = s.domains ∧
    (execute s dn mn ps resp).state.eventSlots = s.eventSlots ∧
    (execute s dn mn ps resp).state.heap = s.heap ∧
    (execute s dn mn ps resp).state.handlers = s.handlers := by
  rcases hre : resp.error with _ | e <;>
    simp [execute, _execute, _wait_for_result, lookup_upsert_self, hre, MRes.state]

/-- C1: for every execute call whose matched payload carries a CDP error
object, execute raises an error whose kind is determined solely by the error
code (-32000 resource-not-found, -32601 method-not-found, -32602
invalid-parameters and any other code the generic protocol error), each
carrying the original error message; a payload without an error object is
returned unchanged. -/
theorem execute_translates_cdp_error_codes
    (s : WSState) (dn mn : String) (ps : Params) (resp : Payload) :
    (resp.error = none →
      (execute s dn mn ps resp).value = some resp ∧
      (execute s dn mn ps resp).raised = none) ∧
    (∀ c msg, resp.error = some { code := c, message := msg } →
      (execute s dn mn ps resp).value = none ∧
      (execute s dn mn ps resp).raised = some
        (if c = -32000 then .resourceNotFound msg
         else if c = -32601 then .methodNotFound msg
         else if c = -32602 then .invalidParameters msg
         else .unknown c msg)) := by
  constructor
  · intro h
    simp [execute, _wait_for_result, lookup_upsert_self, h, MRes.value, MRes.raised]
  · intro c msg h
    simp [execute, _wait_for_result, lookup_upsert_self, h, MRes.value, MRes.raised,
      translateProtocolError]

/-- C1 witness: a concrete command rejected with code -32601. -/
theorem execute_translates_cdp_error_codes_witness :
    (execute WSState.empty "Network" "enable" []
        { error := some { code := -32601, message := "not found" } }).raised =
      some (.methodNotFound "not found") := by
  have h := (execute_translates_cdp_error_codes WSState.empty "Network" "enable" []
      { error := some { code := -32601, message := "not found" } }).2
    (-32601) "not found" rfl
  rw [h.2]
  decide

/-- C2: enabling an unregistered domain that the protocol rejects raises the
translated protocol error and leaves the domain absent from the registry with
no event sequence allocated; a subsequent get_events for it still raises the
domain-not-enabled error. -/
theorem enable_domain_atomic_on_rejection
    (s : WSState) (d : String) (ps : Params) (e : ErrObj) (resp : Payload)
    (hdom : s.domains.lookup d = none)
    (hslot : s.eventSlots.lookup d = none)
    (herr : resp.error = some e) :
    (enable_domain s d ps resp).raised = some (translateProtocolError e) ∧
    (enable_domain s d ps resp).state.domains.lookup d = none ∧
    (enable_domain s d ps resp).state.eventSlots.lookup d = none ∧
    ∀ c : Bool, (get_events (enable_domain s d ps resp).state d c).raised =
      some (.domainNotEnabled d) := by
  have hr := execute_raised_of_error s d "enable" ps resp e herr
  have hp := execute_preserves_registry s d "enable" ps resp
  cases hex : execute s d "enable" ps resp with
  | ok v s' =>
    rw [hex] at hr
    simp [MRes.raised] at hr
  | exn e' s' =>
    rw [hex] at hr hp
    simp only [MRes.raised, Option.some_inj] at hr
    simp only [MRes.state] at hp
    subst hr
    have hen : enable_domain s d ps resp = .exn (translateProtocolError e) s' := by
      simp [enable_domain, hex]
    rw [hen]
    simp only [MRes.raised, MRes.state]
    refine ⟨trivial, ?_, ?_, ?_⟩
    · rw [hp.1]
      exact hdom
    · rw [hp.2.1]
      exact hslot
    · intro c
      have hne : is_domain_enabled s' d = false := by
        simp [is_domain_enabled, hp.1, hdom]
      simp [get_events, hne, MRes.raised]

/-- C2 witness: a concrete rejected enable on a fresh session manager. -/
theorem enable_domain_atomic_on_rejection_witness :
    (enable_domain WSState.empty "Network" []
        { error := some { code := -32601, message := "no" } }).raised =
      some (.methodNotFound "no") ∧
    (get_events (enable_domain WSState.empty "Network" []
        { error := some { code := -32601, message := "no" } }).state
        "Network" false).raised = some (.domainNotEnabled "Network") := by
  have h := enable_domain_atomic_on_rejection WSState.empty "Network" []
    { code := -32601, message := "no" }
    { error := some { code := -32601, message := "no" } } rfl rfl rfl
  exact ⟨by rw [h.1]; decide, h.2.2.2 false⟩

/-- A session manager state with the Network domain registered and one
buffered event list (used for the disable-domain evaluations). -/
def sampleState : WSState :=
  { domains := [("Network", [])], eventSlots := [("Network", 0)],
    heap := { store := [(0, [])], next := 1 }, results := [], nextResultId := 0,
    sendQueue := [], handlers := { pageLoad := {}, dialog := none } }

/-- C3: evaluation at the failing input. When the protocol rejects the
disable command, disable_domain propagates the translated protocol error to
the caller: the log-only branch that the source keeps for this case is dead
because execute has already raised. The removal of the domain before the
command is issued does hold (second conjunct). -/
theorem disable_domain_rejection_raises :
    (disable_domain sampleState "Network"
        { error := some { code := -32601, message := "mnf" } }).raised =
      some (.methodNotFound "mnf") ∧
    (disable_domain sampleState "Network"
        { error := some { code := -32601, message := "mnf" } }).state.domains.lookup
        "Network" = none := by
  constructor
  · decide
  · decide

/-- C4: for a registered domain, get_events with clear followed by any
further get_events returns the empty sequence, and two non-clearing
get_events calls return equal sequences held by distinct list objects that
are also distinct from the internal slot, so mutating the first returned
list changes neither what the second call returned nor the stored events. -/
theorem get_events_snapshot_semantics
    (s : WSState) (d : String) (ps : Params) (a : Nat)
    (hdom : s.domains.lookup d = some ps)
    (hslot : s.eventSlots.lookup d = some a)
    (haddr : a < s.heap.next) :
    ((get_events s d true).raised = none ∧
     (get_events s d true).value = some a ∧
     ∀ c : Bool,
       (get_events ((get_events s d true).state) d c).raised = none ∧
       ((get_events ((get_events s d true).state) d c).state).heap.get
         (((get_events ((get_events s d true).state) d c).value).getD 0) = []) ∧
    ((get_events s d false).value = some s.heap.next ∧
     (get_events ((get_events s d false).state) d false).value =
       some (s.heap.next + 1) ∧
     ((get_events ((get_events s d false).state) d false).state).heap.get
       s.heap.next = s.heap.get a ∧
     ((get_events ((get_events s d false).state) d false).state).heap.get
       (s.heap.next + 1) = s.heap.get a ∧
     (s.heap.next ≠ s.heap.next + 1 ∧ s.heap.next ≠ a ∧ s.heap.next + 1 ≠ a) ∧
     ((get_events ((get_events s d false).state) d false).state).eventSlots.lookup
       d = some a ∧
     ∀ v : List Message,
       ((((get_events ((get_events s d false).state) d false).state).heap.set
           s.heap.next v).get (s.heap.next + 1) = s.heap.get a ∧
        ((((get_events ((get_events s d false).state) d false).state).heap.set
           s.heap.next v).get a = s.heap.get a))) := by
  have hen : is_domain_enabled s d = true := by simp [is_domain_enabled, hdom]
  have hbne1 : ((s.heap.next + 1 : Nat) == s.heap.next) = false := by
    simp only [beq_eq_false_iff_ne, ne_eq]
    omega
  have hbne0 : ((s.heap.next : Nat) == s.heap.next + 1) = false := by
    simp only [beq_eq_false_iff_ne, ne_eq]
    omega
  have hbnea1 : ((a : Nat) == s.heap.next) = false := by
    simp only [beq_eq_false_iff_ne, ne_eq]
    omega
  have hbnea2 : ((a : Nat) == s.heap.next + 1) = false := by
    simp only [beq_eq_false_iff_ne, ne_eq]
    omega
  constructor
  · -- clear=true hands the live list back and leaves a fresh empty slot
    have h1 : get_events s d true =
        .ok a { s with
          heap := { store := (s.heap.next, []) :: s.heap.store,
                    next := s.heap.next + 1 },
          eventSlots := upsert d s.heap.next s.eventSlots } := by
      simp [get_events, hen, hslot, Heap.alloc]
    rw [h1]
    simp only [MRes.raised, MRes.value, MRes.state]
    refine ⟨trivial, trivial, ?_⟩
    intro c
    have hen1 : is_domain_enabled
        { s with
          heap := { store := (s.heap.next, []) :: s.heap.store,
                    next := s.heap.next + 1 },
          eventSlots := upsert d s.heap.next s.eventSlots } d = true := by
      simp [is_domain_enabled, hdom]
    cases c
    · -- a non-clearing read after clear copies the fresh empty list
      simp [get_events, hen1, lookup_upsert_self, Heap.alloc, Heap.get,
        MRes.raised, MRes.value, MRes.state, List.lookup, hbne1, hbne0]
    · -- a clearing read after clear hands back the fresh empty list
      simp [get_events, hen1, lookup_upsert_self, Heap.alloc, Heap.get,
        MRes.raised, MRes.value, MRes.state, List.lookup, hbne1, hbne0]
  · -- two non-clearing reads: distinct fresh copies of the stored list
    have h1 : get_events s d false =
        .ok s.heap.next { s with
          heap := { store := (s.heap.next, s.heap.get a) :: s.heap.store,
                    next := s.heap.next + 1 } } := by
      simp [get_events, hen, hslot, Heap.alloc]
    rw [h1]
    simp only [MRes.value, MRes.state]
    have hen1 : is_domain_enabled
        { s with
          heap := { store := (s.heap.next, s.heap.get a) :: s.heap.store,
                    next := s.heap.next + 1 } } d = true := by
      simp [is_domain_enabled, hdom]
    have hget1 : Heap.get { store := (s.heap.next, s.heap.get a) :: s.heap.store,
                            next := s.heap.next + 1 } a = s.heap.get a := by
      simp [Heap.get, List.lookup, hbnea1]
    have h2 : get_events { s with
          heap := { store := (s.heap.next, s.heap.get a) :: s.heap.store,
                    next := s.heap.next + 1 } } d false =
        .ok (s.heap.next + 1) { s with
          heap := { store := (s.heap.next + 1, s.heap.get a) ::
                      (s.heap.next, s.heap.get a) :: s.heap.store,
                    next := s.heap.next + 2 } } := by
      simp only [get_events, hen1, hslot, Option.getD_some, Bool.false_eq_true,
        if_false, Heap.alloc, hget1]
      norm_num
    rw [h2]
    simp only [MRes.value, MRes.state]
    refine ⟨trivial, trivial, ?_, ?_, ⟨by omega, by omega, by omega⟩, hslot, ?_⟩
    · simp [Heap.get, List.lookup, hbne1, hbne0]
    · simp [Heap.get, List.lookup, hbne0]
    · intro v
      constructor
      · simp [Heap.set, Heap.get, List.lookup, hbne1]
      · simp [Heap.set, Heap.get, List.lookup, hbnea1, hbnea2]

/-- C4 witness: the clear and snapshot semantics at a concrete registered
domain. -/
theorem get_events_snapshot_semantics_witness :
    (get_events sampleState "Network" true).raised = none ∧
    (get_events ((get_events sampleState "Network" false).state)
      "Network" false).value = some 2 := by
  have h := get_events_snapshot_semantics sampleState "Network" [] 0 rfl rfl
    (by decide)
  exact ⟨h.1.1, h.2.2.1⟩

/-- A non-clearing get_events call returns a fresh copy of the stored event
list. -/
theorem get_events_false_eq (s : WSState) (d : String)
    (hen : is_domain_enabled s d = true) (a : Nat)
    (hslot : s.eventSlots.lookup d = some a) :
    get_events s d false = .ok s.heap.next
      { s with heap := { store := (s.heap.next, s.heap.get a) :: s.heap.store,
                         next := s.heap.next + 1 } } := by
  simp [get_events, hen, hslot, Heap.alloc]

/-- C9: reset leaves the domain registry (and the handler states) unchanged
and clears only the event sequences, the results map, the id counter and the
send queue; get_events on a previously registered domain returns an empty
sequence rather than raising. -/
theorem reset_preserves_domain_registry
    (s : WSState) (d : String)
    (hstore : ∀ p ∈ s.heap.store, p.1 < s.heap.next)
    (hdom : (s.domains.lookup d).isSome = true)
    (hslot : (s.eventSlots.lookup d).isSome = true) :
    (reset s).domains = s.domains ∧
    (reset s).handlers = s.handlers ∧
    (reset s).results = [] ∧
    (reset s).nextResultId = 0 ∧
    (reset s).sendQueue = [] ∧
    (get_events (reset s) d false).raised = none ∧
    ((get_events (reset s) d false).state).heap.get
      (((get_events (reset s) d false).value).getD 0) = [] := by
  obtain ⟨i, hi, hl⟩ := lookup_resetSlots s.eventSlots d hslot s.heap.next
  have hen : is_domain_enabled (reset s) d = true := by
    simp [is_domain_enabled, reset, hdom]
  have hget : (reset s).heap.get (s.heap.next + i) = [] := by
    simp only [reset, Heap.get]
    rw [lookup_none_of_bound hstore (by omega)]
    rfl
  have hslot2 : (reset s).eventSlots.lookup d = some (s.heap.next + i) := hl
  have hrun := get_events_false_eq (reset s) d hen (s.heap.next + i) hslot2
  refine ⟨rfl, rfl, rfl, rfl, rfl, ?_, ?_⟩
  · rw [hrun]
    rfl
  · rw [hrun]
    simp only [MRes.state, MRes.value, Option.getD_some]
    simp only [Heap.get, List.lookup, beq_self_eq_true]
    rw [← Heap.get, hget]
    rfl

/-- C9 witness: reset at a concrete state with one registered domain. -/
theorem reset_preserves_domain_registry_witness :
    (reset sampleState).domains = [("Network", [])] ∧
    (get_events (reset sampleState) "Network" false).raised = none ∧
    ((get_events (reset sampleState) "Network" false).state).heap.get
      (((get_events (reset sampleState) "Network" false).value).getD 0) = [] := by
  have h := reset_preserves_domain_registry sampleState "Network"
    (by decide) (by decide) (by decide)
  exact ⟨h.1, h.2.2.2.2.2.1, h.2.2.2.2.2.2⟩

/-- C5: the reconnection policy of the session manager. On a blocked or
closed transport the failure counter is reset when more than 300 seconds have
elapsed since the previous failure and is then incremented; a counter beyond
the budget of 3 raises the fatal max-retries error with no replacement
transport loop created (the fourth failure inside the window), and otherwise
a replacement loop is created with every currently registered domain
re-enabled on it. -/
theorem transport_failure_retry_policy (now t : Nat) (c : Nat)
    (doms : List String) :
    (now - t > 300 →
      _check_message_producer now .blockedOrClosed
          { lastNotOk := some t, notOkCount := c } doms =
        .ok { retry := { lastNotOk := some now, notOkCount := 1 },
              newProducerCreated := true, reenabledDomains := doms }) ∧
    (now - t ≤ 300 → c + 1 ≤ 3 →
      _check_message_producer now .blockedOrClosed
          { lastNotOk := some t, notOkCount := c } doms =
        .ok { retry := { lastNotOk := some now, notOkCount := c + 1 },
              newProducerCreated := true, reenabledDomains := doms }) ∧
    (now - t ≤ 300 → c ≥ 3 →
      _check_message_producer now .blockedOrClosed
          { lastNotOk := some t, notOkCount := c } doms = .error .maxRetries) ∧
    (_check_message_producer now .healthy
        { lastNotOk := some t, notOkCount := c } doms =
      .ok { retry := { lastNotOk := some t, notOkCount := c },
            newProducerCreated := false, reenabledDomains := [] }) := by
  refine ⟨?_, ?_, ?_, rfl⟩
  · intro h
    simp [_check_message_producer, _increment_message_producer_not_ok,
      RETRY_COUNT_TIMEOUT, MAX_RETRY_THREADS, h]
  · intro h1 h2
    have h3 : ¬ (now - t > RETRY_COUNT_TIMEOUT) := by
      simp only [RETRY_COUNT_TIMEOUT]
      omega
    have h4 : ¬ (c + 1 > MAX_RETRY_THREADS) := by
      simp only [MAX_RETRY_THREADS]
      omega
    simp [_check_message_producer, _increment_message_producer_not_ok, h3, h4]
  · intro h1 h2
    have h3 : ¬ (now - t > RETRY_COUNT_TIMEOUT) := by
      simp only [RETRY_COUNT_TIMEOUT]
      omega
    have h4 : c + 1 > MAX_RETRY_THREADS := by
      simp only [MAX_RETRY_THREADS]
      omega
    simp [_check_message_producer, _increment_message_producer_not_ok, h3, h4]

/-- C5 witness: the fourth failure 10 seconds after the third raises the
max-retries error, while the third failure still reconnects and re-enables
the registered domains. -/
theorem transport_failure_retry_policy_witness :
    _check_message_producer 1010 .blockedOrClosed
        { lastNotOk := some 1000, notOkCount := 3 } ["Page", "Network"] =
      .error .maxRetries ∧
    _check_message_producer 1010 .blockedOrClosed
        { lastNotOk := some 1000, notOkCount := 2 } ["Page", "Network"] =
      .ok { retry := { lastNotOk := some 1010, notOkCount := 3 },
            newProducerCreated := true,
            reenabledDomains := ["Page", "Network"] } := by
  refine ⟨?_, ?_⟩
  · exact (transport_failure_retry_policy 1010 1000 3 ["Page", "Network"]).2.2.1
      (by decide) (by decide)
  · exact (transport_failure_retry_policy 1010 1000 2 ["Page", "Network"]).2.1
      (by decide) (by decide)

/-- C6 counterexample: reset clears the id counter, so the id allocated by
the first command before a reset equals the id allocated by the first command
after it: ids are reused across a reset. -/
theorem command_id_reused_after_reset :
    (_execute WSState.empty "Network" "enable" []).1 = 1 ∧
    (_execute (reset (_execute WSState.empty "Network" "enable" []).2)
      "Page" "enable" []).1 = 1 := by
  exact ⟨rfl, rfl⟩

/-- C6 (amended): among execute calls with no intervening reset the allocated
ids are strictly increasing, hence pairwise distinct, and a waiting caller
receives exactly the result stored under its own id. -/
theorem command_ids_unique_without_reset
    (s : WSState) (cmds : List (String × String × Params))
    (rid : Nat) (p : Payload) (h : s.results.lookup rid = some p) :
    (execMany s cmds).Pairwise (· < ·) ∧
    (execMany s cmds).Pairwise (· ≠ ·) ∧
    (_wait_for_result s rid).value = some p := by
  have he := execMany_eq_range' cmds s
  refine ⟨?_, ?_, ?_⟩
  · rw [he]
    exact List.pairwise_lt_range' _ _ 1
  · rw [he]
    exact (List.pairwise_lt_range' _ _ 1).imp Nat.ne_of_lt
  · simp [_wait_for_result, h, MRes.value]

/-- A session manager state holding one stored result under id 3. -/
def pendingResultState : WSState :=
  { WSState.empty with nextResultId := 4, results := [(3, {})] }

/-- C6 witness: three allocations from a state holding one stored result. -/
theorem command_ids_unique_without_reset_witness :
    (execMany pendingResultState
      [("Page", "enable", []), ("Network", "enable", []),
       ("DOM", "getDocument", [])]).Pairwise (· ≠ ·) ∧
    (_wait_for_result pendingResultState 3).value = some {} := by
  have h := command_ids_unique_without_reset pendingResultState
    [("Page", "enable", []), ("Network", "enable", []),
     ("DOM", "getDocument", [])] 3 {} rfl
  exact ⟨h.2.1, h.2.2⟩

/-- C7: the demultiplexer. A result message and an error message are stored
in the results map under their id; a method message whose method splits as
domain-dot-name first runs the matching internal handler synchronously
(identity when the method is not in the routing table) and is then appended
to the event sequence of its domain exactly when that domain is registered;
a message with none of the three fields is discarded with no state change. -/
theorem process_message_demultiplexes (s : WSState) (m : Message) :
    (∀ i p, m.result = some p → m.id = some i →
      _process_message s m = .ok { s with results := upsert i p s.results }) ∧
    (∀ i e, m.result = none → m.error = some e → m.id = some i →
      _process_message s m =
        .ok { s with results := upsert i { error := some e } s.results }) ∧
    (∀ meth hs, m.result = none → m.error = none → m.method = some meth →
      dispatchInternal s.handlers meth m = .ok hs →
      ∀ d n, pySplitDot meth = [d, n] →
        ((∀ a, s.eventSlots.lookup d = some a →
          _process_message s m =
            .ok { s with
                  handlers := hs,
                  heap := s.heap.set a (s.heap.get a ++ [m]) }) ∧
         (s.eventSlots.lookup d = none →
          _process_message s m = .ok { s with handlers := hs }))) ∧
    (∀ meth, meth ∉ PageLoadEventHandler.supported_events →
      meth ∉ JavascriptDialogEventHandler.supported_events →
      dispatchInternal s.handlers meth m = .ok s.handlers) ∧
    (m.result = none → m.error = none → m.method = none →
      _process_message s m = .ok s) := by
  refine ⟨?_, ?_, ?_, ?_, ?_⟩
  · intro i p hr hi
    simp [_process_message, hr, hi]
  · intro i e hr he hi
    simp [_process_message, hr, he, hi]
  · intro meth hs hr he hm hdisp d n hsp
    constructor
    · intro a ha
      simp [_process_message, hr, he, hm, hdisp, hsp, ha]
    · intro ha
      simp [_process_message, hr, he, hm, hdisp, hsp, ha]
  · intro meth hnp hnd
    simp [dispatchInternal, hnp, hnd]
  · intro hr he hm
    simp [_process_message, hr, he, hm]

/-- C7 witness: a concrete result message is stored under its id, and a
concrete registered-domain event is appended. -/
theorem process_message_demultiplexes_witness :
    _process_message WSState.empty { id := some 7, result := some {} } =
      .ok { WSState.empty with results := [(7, {})] } ∧
    _process_message sampleState
        { method := some "Network.responseReceived" } =
      .ok { sampleState with
            heap := sampleState.heap.set 0 (sampleState.heap.get 0 ++
              [{ method := some "Network.responseReceived" }]) } := by
  constructor
  · exact (process_message_demultiplexes WSState.empty
      { id := some 7, result := some {} }).1 7 {} rfl rfl
  · exact (((process_message_demultiplexes sampleState
      { method := some "Network.responseReceived" }).2.2.1
        "Network.responseReceived" sampleState.handlers rfl rfl rfl
        (by rfl) "Network" "responseReceived"
        (by decide)).1 0 rfl)

/-- C8: the page-load state machine. domContentEventFired and frameNavigated
clear both cached fields; navigatedWithinDocument only replaces the cached
URL and keeps the cached root node id, so with the Page domain enabled the
next get_current_url returns the event URL and the next
get_root_backend_node_id returns the previously cached id, both with zero
DOM.getDocument commands issued. -/
theorem pageload_handler_navigation_transitions
    (u₀ u : String) (r : Nat) (doc : DocumentRoot) (m mdc mfn : Message)
    (h1 : m.method = some "Page.navigatedWithinDocument")
    (h2 : m.params.lookup "url" = some u)
    (h3 : mdc.method = some "Page.domContentEventFired")
    (h4 : mfn.method = some "Page.frameNavigated") :
    (∀ st : PageLoadState, PageLoadEventHandler.handle mdc st =
      .ok { url := none, rootNodeId := none }) ∧
    (∀ st : PageLoadState, PageLoadEventHandler.handle mfn st =
      .ok { url := none, rootNodeId := none }) ∧
    PageLoadEventHandler.handle m { url := some u₀, rootNodeId := some r } =
      .ok { url := some u, rootNodeId := some r } ∧
    get_current_url true doc { url := some u, rootNodeId := some r } =
      (some u, { url := some u, rootNodeId := some r }, 0) ∧
    get_root_backend_node_id true doc { url := some u, rootNodeId := some r } =
      (some r, { url := some u, rootNodeId := some r }, 0) := by
  refine ⟨?_, ?_, ?_, ?_, ?_⟩
  · intro st
    simp [PageLoadEventHandler.handle, h3]
  · intro st
    simp [PageLoadEventHandler.handle, h4]
  · simp [PageLoadEventHandler.handle, h1, h2]
  · simp [get_current_url, check_page_load]
  · simp [get_root_backend_node_id, check_page_load]

/-- C8 witness: the single-page-app navigation scenario at concrete events
and a concrete previously cached root id. -/
theorem pageload_handler_navigation_transitions_witness :
    PageLoadEventHandler.handle
        { method := some "Page.navigatedWithinDocument",
          params := [("url", "b")] }
        { url := some "a", rootNodeId := some 42 } =
      .ok { url := some "b", rootNodeId := some 42 } ∧
    get_current_url true { documentURL := "stale", backendNodeId := 9 }
        { url := some "b", rootNodeId := some 42 } =
      (some "b", { url := some "b", rootNodeId := some 42 }, 0) ∧
    get_root_backend_node_id true { documentURL := "stale", backendNodeId := 9 }
        { url := some "b", rootNodeId := some 42 } =
      (some 42, { url := some "b", rootNodeId := some 42 }, 0) := by
  have h := pageload_handler_navigation_transitions "a" "b" 42
    { documentURL := "stale", backendNodeId := 9 }
    { method := some "Page.navigatedWithinDocument", params := [("url", "b")] }
    { method := some "Page.domContentEventFired" }
    { method := some "Page.frameNavigated" }
    rfl rfl rfl rfl
  exact ⟨h.2.2.1, h.2.2.2.1, h.2.2.2.2⟩

/-- Every method string in the internal routing table splits into exactly two
parts on the dot. -/
theorem supported_events_split_len (meth : String)
    (h : meth ∈ PageLoadEventHandler.supported_events ∨
         meth ∈ JavascriptDialogEventHandler.supported_events) :
    (pySplitDot meth).length = 2 := by
  simp [PageLoadEventHandler.supported_events,
    JavascriptDialogEventHandler.supported_events] at h
  rcases h with (h | h | h) | (h | h) <;> subst h <;> decide

/-- C10: a message carrying a method that does not split into exactly two
parts on the dot (no dot, or more than one) makes the demultiplexer raise an
unhandled ValueError instead of logging and discarding, and the unguarded
split runs even though such a method is never in the routing table. -/
theorem process_message_split_value_error
    (s : WSState) (m : Message) (meth : String)
    (h1 : m.result = none) (h2 : m.error = none) (h3 : m.method = some meth)
    (h4 : (pySplitDot meth).length ≠ 2) :
    _process_message s m = .error .valueError := by
  have hp : meth ∉ PageLoadEventHandler.supported_events := fun hmem =>
    h4 (supported_events_split_len meth (Or.inl hmem))
  have hd : meth ∉ JavascriptDialogEventHandler.supported_events := fun hmem =>
    h4 (supported_events_split_len meth (Or.inr hmem))
  have hdisp : dispatchInternal s.handlers meth m = .ok s.handlers := by
    simp [dispatchInternal, hp, hd]
  rcases hsp : pySplitDot meth with _ | ⟨x, _ | ⟨y, _ | ⟨z, rest⟩⟩⟩
  · simp [_process_message, h1, h2, h3, hdisp, hsp]
  · simp [_process_message, h1, h2, h3, hdisp, hsp]
  · refine absurd ?_ h4
    rw [hsp]
    simp
  · simp [_process_message, h1, h2, h3, hdisp, hsp]

/-- C10 witness: a dotless method string raises the ValueError. -/
theorem process_message_split_value_error_witness :
    _process_message WSState.empty { method := some "TargetCrashed" } =
      .error .valueError := by
  exact process_message_split_value_error WSState.empty
    { method := some "TargetCrashed" } "TargetCrashed" rfl rfl rfl (by decide)

end BrowserDebuggerTools
